import Mathlib

/-!
Verification of the orchestration core of the Multiagents-system repository:
the post-tool routing function `after_tools_decision`, the `assistant` and
`critic_node` steps of `src/backend/agent/graph.py`, and the cache write-back
gate of `src/backend/app.py`, shallowly embedded in Lean.
-/

namespace Multiagents

/-! ### String helpers mirroring the Python primitives used by the source -/

/-- Lowercasing of one character as Python's `str.lower` behaves on the
characters that actually occur in this code base: ASCII letters and the
Russian Cyrillic letters А-Я and Ё. -/
def pyLowerChar (c : Char) : Char :=
  if 'A' ≤ c ∧ c ≤ 'Z' then Char.ofNat (c.toNat + 32)
  else if 0x410 ≤ c.toNat ∧ c.toNat ≤ 0x42F then Char.ofNat (c.toNat + 32)
  else if c.toNat = 0x401 then Char.ofNat 0x451
  else c

/-- Python `s.lower()` restricted to the alphabets used by the source. -/
def pyLower (s : String) : String := String.mk (s.toList.map pyLowerChar)

/-- Python's `s[:n]` slice: the first `n` characters (code points). -/
def pyTake (s : String) (n : Nat) : String := String.mk (s.toList.take n)

/-- Whitespace characters stripped by Python's `str.strip()` as they occur
in this code base. -/
def pyIsSpace (c : Char) : Bool :=
  c = ' ' || c = '\t' || c = '\n' || c = '\r' || c.toNat = 11 || c.toNat = 12

/-- Python's `s.strip()`. -/
def pyStrip (s : String) : String :=
  String.mk (((s.toList.dropWhile pyIsSpace).reverse.dropWhile pyIsSpace).reverse)

/-- Python's `needle in hay` substring test, over character lists. -/
def listContainsSub (needle : List Char) : List Char → Bool
  | [] => needle.isEmpty
  | c :: rest => needle.isPrefixOf (c :: rest) || listContainsSub needle rest

/-- Python's `needle in hay` substring test on strings. -/
def containsSubstr (hay needle : String) : Bool :=
  listContainsSub needle.toList hay.toList

/-- Python's `l[-n:]` slice for `n > 0`: the last `n` elements (all of them
when the list is shorter). -/
def lastN (n : Nat) (l : List α) : List α := l.drop (l.length - n)

/-! ### Data model: messages and tool payloads -/

/-- The typed fields the source reads out of a successfully `json.loads`-parsed
`run_sql` tool payload, via `.get` with the defaults of
`graph.py` lines 340-344: `success` (default `False`), `row_count`
(default `0`), `error` (default `""`), `is_connection_error`
(default `False`), and the length of `data` (default `[]`, line 406). -/
structure SqlResult where
  success : Bool
  rowCount : Int
  error : String
  isConnectionError : Bool
  dataLen : Nat
deriving DecidableEq

/-- Content of a tool-result message: either `json.loads` succeeds and yields
the typed payload, or it raises and the raw string is all the code can use. -/
inductive ToolContent
  | parsed (r : SqlResult)
  | unparsed (raw : String)
deriving DecidableEq

/-- The message kinds threaded through the graph state: `HumanMessage`,
`AIMessage` (with its optional `name` attribute) and `ToolMessage`
(whose `name` is the tool name). -/
inductive Msg
  | human (content : String)
  | ai (content : String) (name : Option String)
  | tool (content : ToolContent) (name : String)
deriving DecidableEq

/-- `getattr(m, "name", "")` as used on lines 324, 360: a missing or `None`
name compares like the empty string against the tool-name literals. -/
def msgName : Msg → String
  | Msg.human _ => ""
  | Msg.ai _ n => n.getD ""
  | Msg.tool _ n => n

/-- Text content of a message; the router only reads it from assistant
(critic) messages, whose content is plain text. -/
def msgText : Msg → String
  | Msg.human c => c
  | Msg.ai c _ => c
  | Msg.tool _ _ => ""

/-- `isinstance(m, AIMessage) and getattr(m, "name", "") == "sql_critic"`. -/
def isCriticMsg : Msg → Bool
  | Msg.ai _ (some n) => n = "sql_critic"
  | _ => false

/-- `isinstance(m, HumanMessage)`. -/
def isHumanMsg : Msg → Bool
  | Msg.human _ => true
  | _ => false

/-- `isinstance(m, ToolMessage) and m.name == "run_sql"`. -/
def isRunSqlTool : Msg → Bool
  | Msg.tool _ n => n = "run_sql"
  | _ => false

/-- `isinstance(m, ToolMessage) and m.name == "get_postgres_schema"`. -/
def isSchemaToolMsg : Msg → Bool
  | Msg.tool _ n => n = "get_postgres_schema"
  | _ => false

/-- The slice of the graph state the verified functions read:
`messages`, `critic_attempts` (default 0) and `original_query`. -/
structure AgentState where
  messages : List Msg
  criticAttempts : Nat
  originalQuery : String
deriving DecidableEq

/-! ### Visualization-request keyword classifier (graph.py lines 44-55) -/

/-- The fixed keyword list `VIS_KEYWORDS`. -/
def VIS_KEYWORDS : List String :=
  ["график", "графики", "диаграмм", "chart", "plot", "нарисуй",
   "визуализ", "построй", "покажи график", "bar", "pie",
   "линейный", "столбчат", "круговая", "heatmap", "визуализируй",
   "построй график", "покажи на графике"]

/-- `_is_vis_request`: case-insensitive substring match against the fixed
keyword set. -/
def isVisRequest (text : String) : Bool :=
  VIS_KEYWORDS.any (fun kw => containsSubstr (pyLower text) kw)

/-! ### Post-tool routing (graph.py `after_tools_decision`, lines 318-418) -/

/-- The four routing outcomes; `END` is modelled as `Route.terminate`. -/
inductive Route
  | assistant
  | critic
  | graphVis
  | terminate
deriving DecidableEq

/-- Lines 339-349: parse the `run_sql` payload. A parse failure is treated as
`success=False, row_count=0`, the error text is the first 200 characters of
the raw content, and `is_connection_error` is whether those 200 characters
contain `"server closed"` case-insensitively. -/
def parsePayload : ToolContent → Bool × Int × String × Bool
  | ToolContent.parsed r => (r.success, r.rowCount, r.error, r.isConnectionError)
  | ToolContent.unparsed raw =>
      (false, 0, pyTake raw 200, containsSubstr (pyLower (pyTake raw 200)) "server closed")

/-- Line 406 reads `result.get("data", [])`; this is only evaluated on the
parsed branch (on the unparsed branch the earlier returns always fire, so the
unbound-`result` path of the source is unreachable). -/
def payloadDataLen : ToolContent → Nat
  | ToolContent.parsed r => r.dataLen
  | ToolContent.unparsed _ => 0

/-- Lines 384-418: the main policy after the loop-detection guards. -/
def mainPolicy (st : AgentState) (success : Bool) (rowCount : Int)
    (errorText : String) (dataLen : Nat) : Option Route :=
  if (!success || containsSubstr (pyLower errorText) "error") = true
      ∧ st.criticAttempts < 3 then some Route.critic
  else if rowCount = 0 then some Route.assistant
  else if 3 ≤ st.criticAttempts then some Route.assistant
  else if success = false ∨ rowCount = 0 then some Route.terminate
  else if isVisRequest st.originalQuery = true ∧ 0 < dataLen then some Route.graphVis
  else if 0 < dataLen then some Route.assistant
  else some Route.terminate

/-- Lines 369-379: count, walking back from the newest message until the most
recent `HumanMessage`, the `run_sql` tool results whose parsed payload has a
truthy `success` and `row_count == 0` (the unparsable ones are skipped by the
`except` clause). Input is the reversed message list. -/
def zeroRowsRev : List Msg → Nat
  | [] => 0
  | Msg.human _ :: _ => 0
  | Msg.tool (ToolContent.parsed r) "run_sql" :: rest =>
      (if r.success = true ∧ r.rowCount = 0 then 1 else 0) + zeroRowsRev rest
  | _ :: rest => zeroRowsRev rest

/-- Successful zero-row `run_sql` results since the last human turn. -/
def zeroRowsSinceHuman (msgs : List Msg) : Nat := zeroRowsRev msgs.reverse

/-- Lines 327-330: total `get_postgres_schema` tool results in the whole
message history (note: not restricted to the current turn). -/
def schemaCallCount (msgs : List Msg) : Nat :=
  (msgs.filter isSchemaToolMsg).length

/-- Lines 358-418: loop-detection guards followed by the main policy. The
guards only run when at least two critic messages exist in history. -/
def routeGuardsAndMain (st : AgentState) (success : Bool) (rowCount : Int)
    (errorText : String) (dataLen : Nat) : Option Route :=
  if 2 ≤ (lastN 3 (st.messages.filter isCriticMsg)).length then
    if (lastN 2 (lastN 3 (st.messages.filter isCriticMsg))).all
        (fun m => containsSubstr (pyLower (msgText m)) "clients") then
      some Route.assistant
    else if 3 ≤ zeroRowsSinceHuman st.messages then
      some Route.assistant
    else mainPolicy st success rowCount errorText dataLen
  else mainPolicy st success rowCount errorText dataLen

/-- `after_tools_decision` (graph.py lines 318-418). `none` models the
source raising on an empty message list; the final catch-all `none` covers a
non-tool last message named `run_sql`, unreachable because this router is
only invoked on the output of the tools node, whose last message is always a
`ToolMessage`. -/
def afterToolsDecision (st : AgentState) : Option Route :=
  match st.messages.getLast? with
  | none => none
  | some last =>
    if msgName last = "get_postgres_schema" then
      if 2 ≤ schemaCallCount st.messages then some Route.terminate
      else some Route.assistant
    else if msgName last ≠ "run_sql" then some Route.terminate
    else
      match last with
      | Msg.tool c _ =>
        match parsePayload c with
        | (success, rowCount, errorText, isConnErr) =>
          if isConnErr = true then some Route.terminate
          else routeGuardsAndMain st success rowCount errorText (payloadDataLen c)
      | _ => none

/-! ### Assistant step (graph.py `assistant`, lines 79-221) -/

/-- `_final_no_data_message` (lines 66-76). Python's `str.strip()` is
modelled by `String.trim` (the whitespace occurring here is ASCII). -/
def finalNoDataMessage (originalQuery : String) : String :=
  let query := pyStrip originalQuery
  if query = "" then
    "По текущему запросу не найдено данных. Уточните период, фильтры или названия сущностей и попробуйте снова."
  else
    "По запросу «" ++ query ++ "» данные не найдены. Проверьте условия фильтрации, диапазон дат или формулировку запроса."

/-- The deterministic fallback of lines 104-113 when the repair budget is
exhausted and the last execution failed with a non-empty error. -/
def budgetExhaustedMessage (error : String) : String :=
  "Не удалось получить данные из БД после нескольких попыток. Последняя ошибка: "
    ++ pyTake (pyStrip error) 220

/-- The deterministic apology when the malformed-tool-call retry also fails
(line 214). -/
def apologyMessage : String :=
  "Произошла ошибка при формировании запроса. Пожалуйста, попробуйте переформулировать ваш вопрос проще."

/-- The deterministic message for any other model failure (line 217). -/
def tempErrorMessage : String :=
  "Произошла временная ошибка. Пожалуйста, попробуйте ещё раз."

/-- Outcome of one model-capability invocation: a returned message, or a
raised exception carrying its error string. -/
inductive LLMResult
  | ok (m : Msg)
  | err (e : String)
deriving DecidableEq

/-- Observable result of one `assistant` step: the single message appended to
the state, how many model invocations were made (0, 1 or 2), and — when the
designated retry was invoked — the message history passed to it. -/
structure AssistantOut where
  appended : Msg
  modelCalls : Nat
  retryHistory : Option (List Msg)
deriving DecidableEq

/-- Lines 117-121: the bounded recent-history view shown to the model. -/
def truncateForLLM (msgs : List Msg) : List Msg :=
  if 12 < msgs.length then lastN 12 msgs else msgs

/-- Line 199: the error-string test selecting the designated retry. -/
def isMalformedToolError (e : String) : Bool :=
  containsSubstr e "tool_use_failed" || containsSubstr e "failed_generation"

/-- Lines 195-221: the model-invocation phase of the assistant step, with the
outcomes of the (at most two) model calls supplied as oracle parameters. On a
malformed tool-invocation failure the retry runs on
`[m for m in messages_for_llm if isinstance(m, HumanMessage)][-1:]`; any
other failure becomes the deterministic temporary-error message. -/
def assistantModelPhase (st : AgentState) (first retry : LLMResult) : AssistantOut :=
  match first with
  | LLMResult.ok m => ⟨m, 1, none⟩
  | LLMResult.err e =>
    if isMalformedToolError e then
      match retry with
      | LLMResult.ok m =>
          ⟨m, 2, some (lastN 1 ((truncateForLLM st.messages).filter isHumanMsg))⟩
      | LLMResult.err _ =>
          ⟨Msg.ai apologyMessage none, 2,
            some (lastN 1 ((truncateForLLM st.messages).filter isHumanMsg))⟩
    else ⟨Msg.ai tempErrorMessage none, 1, none⟩

/-- `assistant` (lines 79-221): the two deterministic short-circuits on a
terminal `run_sql` result (lines 84-90 and 92-115) followed by the model
phase. The success/zero-rows branch of the second block is subsumed by the
first block, which already returns unconditionally on that payload. -/
def assistantStep (st : AgentState) (first retry : LLMResult) : AssistantOut :=
  match st.messages.getLast? with
  | some (Msg.tool (ToolContent.parsed r) "run_sql") =>
    if r.success = true ∧ r.rowCount = 0 then
      ⟨Msg.ai (finalNoDataMessage st.originalQuery) none, 0, none⟩
    else if 3 ≤ st.criticAttempts ∧ r.success = false ∧ pyStrip r.error ≠ "" then
      ⟨Msg.ai (budgetExhaustedMessage r.error) none, 0, none⟩
    else assistantModelPhase st first retry
  | _ => assistantModelPhase st first retry

/-! ### Critic step (graph.py `critic_node`, lines 261-316) -/

/-- Outcome of the critic model invocation: the response content string, or a
raised exception. -/
inductive CriticModelResult
  | ok (content : String)
  | err (e : String)
deriving DecidableEq

/-- Observable result of one `critic_node` invocation. -/
structure CriticOut where
  messages : List Msg
  criticAttempts : Nat
deriving DecidableEq

/-- `critic_node` (lines 261-316): increment the attempt counter; if no
`run_sql` tool result exists anywhere in the history, append nothing;
otherwise append exactly one critic-tagged assistant turn — the critique on
model success, a degraded notice on model failure. -/
def criticNode (st : AgentState) (model : CriticModelResult) : CriticOut :=
  let attempts := st.criticAttempts + 1
  match (st.messages.reverse).find? isRunSqlTool with
  | none => ⟨st.messages, attempts⟩
  | some _ =>
    match model with
    | CriticModelResult.ok content =>
        ⟨st.messages ++
          [Msg.ai ("[Критик SQL - Попытка " ++ toString attempts ++ "]\n" ++ pyStrip content)
            (some "sql_critic")], attempts⟩
    | CriticModelResult.err _ =>
        ⟨st.messages ++
          [Msg.ai "[Критик] Ошибка анализа. Продолжаем без критики."
            (some "sql_critic")], attempts⟩

/-! ### Cache write-back gate (app.py lines 40-92 and 552-603) -/

/-- `ERROR_KEYWORDS` (app.py lines 40-43). -/
def ERROR_KEYWORDS : List String :=
  ["ошибка", "error", "не могу", "невозможно",
   "некорректн", "не найден", "failed", "\x7b", "success"]

/-- The error classification of `_try_cache_response` line 72: any keyword is
a case-insensitive substring of the response. -/
def isErrorResponse (response : String) : Bool :=
  ERROR_KEYWORDS.any (fun kw => containsSubstr (pyLower response) kw)

/-- What `_try_cache_response` does with a candidate entry. -/
inductive CacheAction
  | noStore
  | emptyQuery
  | skippedError
  | written
deriving DecidableEq

/-- `_try_cache_response` (app.py lines 63-92): no store or no embeddings →
nothing; empty query → nothing; response classified as an error → skipped;
otherwise the entry is written. The response is stripped before
classification (line 71). -/
def tryCacheResponse (storeAvailable : Bool) (query response : String) : CacheAction :=
  if storeAvailable = false then CacheAction.noStore
  else if query = "" then CacheAction.emptyQuery
  else if isErrorResponse (pyStrip response) then CacheAction.skippedError
  else CacheAction.written

/-- The `/chat` write-back gate (app.py lines 591-592): `_try_cache_response`
runs only when `result.get("from_cache") is not True`; `none` models the call
being skipped entirely. -/
def chatCacheAction (fromCache : Option Bool) (storeAvailable : Bool)
    (query response : String) : Option CacheAction :=
  if fromCache = some true then none
  else some (tryCacheResponse storeAvailable query response)

/-! ### Spec-side comparison definition and concrete inputs -/

/-- Modelled from the spec (§4.4 rule 1), for comparison with the source:
schema-introspection invocations "this turn", i.e. schema tool results since
the most recent human message, the just-appended one included. Input is the
reversed message list. -/
def schemaCallsRevThisTurn : List Msg → Nat
  | [] => 0
  | Msg.human _ :: _ => 0
  | m :: rest => (if isSchemaToolMsg m then 1 else 0) + schemaCallsRevThisTurn rest

/-- Schema-introspection results since the last human turn. -/
def schemaCallsThisTurn (msgs : List Msg) : Nat :=
  schemaCallsRevThisTurn msgs.reverse

/-- A successful zero-row payload whose error text contains the word
"error". -/
def zeroRowsErrorHintResult : SqlResult := ⟨true, 0, "error hint", false, 0⟩

/-- State for the C1 counterexample: one successful zero-row `run_sql` result
whose error field contains "error", with a fresh repair budget. -/
def c1State : AgentState :=
  ⟨[Msg.human "q",
    Msg.tool (ToolContent.parsed ⟨true, 0, "error", false, 0⟩) "run_sql"], 0, "q"⟩

/-- A state whose newest message is a successful zero-row result with an
empty error text. -/
def cleanZeroRowsState : AgentState :=
  ⟨[Msg.human "вопрос",
    Msg.tool (ToolContent.parsed ⟨true, 0, "", false, 0⟩) "run_sql"], 0, "вопрос"⟩

/-- Unparsable tool content whose "server closed" marker starts only at
character position 200, beyond the 200-character window the router examines. -/
def c2RawContent : String := String.mk (List.replicate 200 'x') ++ "server closed"

/-- State for the C2 counterexample. -/
def c2State : AgentState :=
  ⟨[Msg.human "q", Msg.tool (ToolContent.unparsed c2RawContent) "run_sql"], 0, "q"⟩

/-- State with a parsed connection-error payload. -/
def connErrorState : AgentState :=
  ⟨[Msg.human "q",
    Msg.tool (ToolContent.parsed ⟨false, 0, "server closed the connection", true, 0⟩)
      "run_sql"], 2, "q"⟩

/-- State with a failing result and exhausted repair budget. -/
def c3State : AgentState :=
  ⟨[Msg.human "q",
    Msg.tool (ToolContent.parsed ⟨false, 0, "boom", false, 0⟩) "run_sql"], 3, "q"⟩

/-- State for the C4 counterexample: failed execution, zero rows, no
connection error, budget exhausted. -/
def c4State : AgentState :=
  ⟨[Msg.human "q",
    Msg.tool (ToolContent.parsed ⟨false, 0, "", false, 0⟩) "run_sql"], 3, "q"⟩

/-- State for the C5 counterexample: four successful zero-row results since
the last human turn, no critic turns in history, budget fresh. -/
def c5State : AgentState :=
  ⟨[Msg.human "q",
    Msg.tool (ToolContent.parsed zeroRowsErrorHintResult) "run_sql",
    Msg.tool (ToolContent.parsed zeroRowsErrorHintResult) "run_sql",
    Msg.tool (ToolContent.parsed zeroRowsErrorHintResult) "run_sql",
    Msg.tool (ToolContent.parsed zeroRowsErrorHintResult) "run_sql"], 0, "q"⟩

/-- State for the C5 witness: same zero-row streak with two critic turns. -/
def c5WitnessState : AgentState :=
  ⟨[Msg.human "q",
    Msg.tool (ToolContent.parsed zeroRowsErrorHintResult) "run_sql",
    Msg.ai "critique one" (some "sql_critic"),
    Msg.tool (ToolContent.parsed zeroRowsErrorHintResult) "run_sql",
    Msg.ai "critique two" (some "sql_critic"),
    Msg.tool (ToolContent.parsed zeroRowsErrorHintResult) "run_sql"], 2, "q"⟩

/-- A schema-introspection tool result. -/
def schemaResultMsg : Msg :=
  Msg.tool (ToolContent.unparsed "schema document") "get_postgres_schema"

/-- State for the C6 counterexample: two schema calls in an earlier turn, and
the first schema call of the current turn just appended. -/
def c6State : AgentState :=
  ⟨[Msg.human "a", schemaResultMsg, schemaResultMsg, Msg.human "b",
    schemaResultMsg], 0, "b"⟩

/-- State whose only schema call is the just-appended one. -/
def firstSchemaCallState : AgentState :=
  ⟨[Msg.human "a", schemaResultMsg], 0, "a"⟩

/-! ### Helper lemmas -/

/-- The main policy can only select the critic when the repair budget
remains. -/
theorem mainPolicy_critic_lt (st : AgentState) (s : Bool) (rc : Int) (e : String)
    (d : Nat) (h : mainPolicy st s rc e d = some Route.critic) :
    st.criticAttempts < 3 := by
  unfold mainPolicy at h
  split_ifs at h <;> simp_all

/-- The loop-detection guards never select the critic themselves. -/
theorem routeGuards_critic (st : AgentState) (s : Bool) (rc : Int) (e : String)
    (d : Nat) (h : routeGuardsAndMain st s rc e d = some Route.critic) :
    mainPolicy st s rc e d = some Route.critic := by
  unfold routeGuardsAndMain at h
  split_ifs at h <;> simp_all

/-- If the main policy yields continue-to-assistant, so does the guard
layer (the guards can only force continue-to-assistant). -/
theorem routeGuards_of_main_assistant (st : AgentState) (s : Bool) (rc : Int)
    (e : String) (d : Nat) (h : mainPolicy st s rc e d = some Route.assistant) :
    routeGuardsAndMain st s rc e d = some Route.assistant := by
  unfold routeGuardsAndMain
  split_ifs <;> first | rfl | exact h

/-- A zero-row result routes to the assistant under the main policy whenever
the error heuristic is quiet or the budget is exhausted. -/
theorem mainPolicy_rc0_assistant (st : AgentState) (s : Bool) (e : String) (d : Nat)
    (h : (!s || containsSubstr (pyLower e) "error") = false ∨ 3 ≤ st.criticAttempts) :
    mainPolicy st s 0 e d = some Route.assistant := by
  have h1 : ¬((!s || containsSubstr (pyLower e) "error") = true
      ∧ st.criticAttempts < 3) := by
    rintro ⟨ha, hb⟩
    rcases h with hq | hq
    · rw [hq] at ha; exact absurd ha (by simp)
    · omega
  unfold mainPolicy
  rw [if_neg h1, if_pos rfl]

/-- Reduction of the router on a parsed `run_sql` tool result. -/
theorem afterToolsDecision_parsed (st : AgentState) (r : SqlResult)
    (h : st.messages.getLast? = some (Msg.tool (ToolContent.parsed r) "run_sql")) :
    afterToolsDecision st =
      if r.isConnectionError = true then some Route.terminate
      else routeGuardsAndMain st r.success r.rowCount r.error r.dataLen := by
  unfold afterToolsDecision
  rw [h]
  rfl

/-- Reduction of the router on an unparsable `run_sql` tool result. -/
theorem afterToolsDecision_unparsed (st : AgentState) (raw : String)
    (h : st.messages.getLast? = some (Msg.tool (ToolContent.unparsed raw) "run_sql")) :
    afterToolsDecision st =
      if containsSubstr (pyLower (pyTake raw 200)) "server closed" = true then
        some Route.terminate
      else routeGuardsAndMain st false 0 (pyTake raw 200) 0 := by
  unfold afterToolsDecision
  rw [h]
  rfl

/-- Reduction of the router on a schema-introspection tool result. -/
theorem afterToolsDecision_schema (st : AgentState) (c : ToolContent)
    (h : st.messages.getLast? = some (Msg.tool c "get_postgres_schema")) :
    afterToolsDecision st =
      if 2 ≤ schemaCallCount st.messages then some Route.terminate
      else some Route.assistant := by
  unfold afterToolsDecision
  rw [h]
  rfl

/-- The router can only select the critic when the repair budget remains. -/
theorem afterToolsDecision_critic_lt (st : AgentState)
    (h : afterToolsDecision st = some Route.critic) : st.criticAttempts < 3 := by
  unfold afterToolsDecision at h
  split at h
  · simp at h
  · split at h
    · split at h <;> simp at h
    · split at h
      · simp at h
      · split at h
        · split at h
          · split at h
            · simp at h
            · exact mainPolicy_critic_lt _ _ _ _ _ (routeGuards_critic _ _ _ _ _ h)
        · simp at h

/-- With at least two critic turns in history and at least three successful
zero-row executions since the last human turn, the guard layer forces
continue-to-assistant. -/
theorem routeGuards_zero_rows (st : AgentState) (s : Bool) (rc : Int) (e : String)
    (d : Nat) (hc : 2 ≤ (st.messages.filter isCriticMsg).length)
    (hz : 3 ≤ zeroRowsSinceHuman st.messages) :
    routeGuardsAndMain st s rc e d = some Route.assistant := by
  unfold routeGuardsAndMain
  have hlen : 2 ≤ (lastN 3 (st.messages.filter isCriticMsg)).length := by
    unfold lastN; rw [List.length_drop]; omega
  rw [if_pos hlen]
  split_ifs <;> rfl

/-- The head of a filtered list is the first element satisfying the
predicate. -/
theorem filter_head_eq_find (p : α → Bool) :
    ∀ l : List α, (l.filter p).head? = l.find? p
  | [] => rfl
  | a :: t => by
    by_cases h : p a
    · simp [List.filter_cons, h]
    · simp [List.filter_cons, h, filter_head_eq_find p t]

/-- Python's `[m for m in l if p(m)][-1:]` is either empty or the singleton
of the last element of `l` satisfying `p`. -/
theorem lastN_one_filter (p : α → Bool) (l : List α) :
    lastN 1 (l.filter p) = [] ∨
      ∃ a, lastN 1 (l.filter p) = [a] ∧ l.reverse.find? p = some a := by
  induction l using List.reverseRecOn with
  | nil => exact Or.inl rfl
  | append_singleton l' a ih =>
    by_cases h : p a
    · right
      refine ⟨a, ?_, ?_⟩
      · rw [List.filter_append, List.filter_cons, if_pos h]
        unfold lastN
        simp
      · rw [List.reverse_append]
        simp [h]
    · rw [List.filter_append, List.filter_cons, if_neg h]
      rw [List.reverse_append]
      simpa [h] using ih

/-- A hit of `find?` on the reversed truncated view is a hit on the reversed
full history: the truncated view is a suffix. -/
theorem find_truncate_lift (p : Msg → Bool) (l : List Msg) (a : Msg)
    (h : ((truncateForLLM l).reverse).find? p = some a) :
    (l.reverse).find? p = some a := by
  unfold truncateForLLM at h
  split at h
  · unfold lastN at h
    have hsplit : l = l.take (l.length - 12) ++ l.drop (l.length - 12) :=
      (List.take_append_drop _ l).symm
    rw [hsplit, List.reverse_append, List.find?_append, h]
    rfl
  · exact h

/-- Reduction of the assistant step when the newest message is a parsed
`run_sql` result. -/
theorem assistantStep_parsed (st : AgentState) (r : SqlResult) (first retry : LLMResult)
    (h : st.messages.getLast? = some (Msg.tool (ToolContent.parsed r) "run_sql")) :
    assistantStep st first retry =
      if r.success = true ∧ r.rowCount = 0 then
        ⟨Msg.ai (finalNoDataMessage st.originalQuery) none, 0, none⟩
      else if 3 ≤ st.criticAttempts ∧ r.success = false ∧ pyStrip r.error ≠ "" then
        ⟨Msg.ai (budgetExhaustedMessage r.error) none, 0, none⟩
      else assistantModelPhase st first retry := by
  unfold assistantStep
  rw [h]
  rfl

/-! ### Claim C1 -/

/-- C1 (amended): for a `run_sql` tool result parsed with `success=true` and
`row_count=0`, the assistant step synthesizes the deterministic no-data
message without invoking the model (for any error text and attempt count);
the post-tool decision is continue-to-assistant provided additionally that
`is_connection_error` is false and either the error text does not contain
"error" case-insensitively or the repair budget is exhausted. -/
theorem claim_C1_success_zero_rows (st : AgentState) (r : SqlResult)
    (first retry : LLMResult)
    (hlast : st.messages.getLast? = some (Msg.tool (ToolContent.parsed r) "run_sql"))
    (hs : r.success = true) (hrc : r.rowCount = 0) :
    assistantStep st first retry =
      ⟨Msg.ai (finalNoDataMessage st.originalQuery) none, 0, none⟩ ∧
    (r.isConnectionError = false →
      (containsSubstr (pyLower r.error) "error" = false ∨ 3 ≤ st.criticAttempts) →
      afterToolsDecision st = some Route.assistant) := by
  constructor
  · rw [assistantStep_parsed st r first retry hlast, if_pos ⟨hs, hrc⟩]
  · intro hic herr
    rw [afterToolsDecision_parsed st r hlast, if_neg (by simp [hic])]
    apply routeGuards_of_main_assistant
    rw [hrc]
    apply mainPolicy_rc0_assistant
    rcases herr with herr | herr
    · left; simp [hs, herr]
    · right; exact herr

/-- C1 counterexample: a successful zero-row `run_sql` result whose error
text contains "error" is routed to the critic when the repair budget
remains, not to the assistant as the claim states. -/
theorem claim_C1_counterexample :
    afterToolsDecision c1State = some Route.critic := by decide

/-- C1 witness. -/
theorem claim_C1_success_zero_rows_witness :
    assistantStep cleanZeroRowsState (LLMResult.ok (Msg.ai "a" none))
        (LLMResult.ok (Msg.ai "a" none)) =
      ⟨Msg.ai (finalNoDataMessage "вопрос") none, 0, none⟩ ∧
    afterToolsDecision cleanZeroRowsState = some Route.assistant := by
  have h := claim_C1_success_zero_rows cleanZeroRowsState ⟨true, 0, "", false, 0⟩
    (LLMResult.ok (Msg.ai "a" none)) (LLMResult.ok (Msg.ai "a" none))
    rfl rfl rfl
  exact ⟨h.1, h.2 rfl (Or.inl (by decide))⟩

/-! ### Claim C2 -/

/-- C2 (amended): a `run_sql` result whose parsed payload has
`is_connection_error=true` — or, for an unparsable payload, whose FIRST 200
CHARACTERS contain "server closed" case-insensitively — always makes the
post-tool decision terminate, regardless of attempt count, row count,
success flag or error text. -/
theorem claim_C2_connection_error_terminates (st : AgentState) (c : ToolContent)
    (hlast : st.messages.getLast? = some (Msg.tool c "run_sql"))
    (hconn : (∃ r, c = ToolContent.parsed r ∧ r.isConnectionError = true) ∨
      (∃ raw, c = ToolContent.unparsed raw ∧
        containsSubstr (pyLower (pyTake raw 200)) "server closed" = true)) :
    afterToolsDecision st = some Route.terminate := by
  rcases hconn with ⟨r, rfl, hic⟩ | ⟨raw, rfl, hsc⟩
  · rw [afterToolsDecision_parsed st r hlast, if_pos hic]
  · rw [afterToolsDecision_unparsed st raw hlast, if_pos hsc]

/-- C2 counterexample: an unparsable payload that does contain
"server closed" — but only after its first 200 characters — is routed to the
critic, not terminated, contradicting the claim as stated. -/
theorem claim_C2_counterexample :
    containsSubstr (pyLower c2RawContent) "server closed" = true ∧
    afterToolsDecision c2State = some Route.critic := by decide

/-- C2 witness. -/
theorem claim_C2_connection_error_terminates_witness :
    afterToolsDecision connErrorState = some Route.terminate := by
  exact claim_C2_connection_error_terminates connErrorState
    (ToolContent.parsed ⟨false, 0, "server closed the connection", true, 0⟩)
    rfl (Or.inl ⟨_, rfl, rfl⟩)

/-! ### Claim C3 -/

/-- C3: once `critic_attempts` reaches 3, the post-tool decision never
selects the critic (so the counter, which each critic invocation increments
by exactly one, never exceeds 3 within a turn), and the assistant step on a
failed `run_sql` result with a non-empty error synthesizes the deterministic
fallback message without calling the model. -/
theorem claim_C3_budget_cap (st : AgentState) (h3 : 3 ≤ st.criticAttempts) :
    afterToolsDecision st ≠ some Route.critic ∧
    (∀ model : CriticModelResult,
      (criticNode st model).criticAttempts = st.criticAttempts + 1) ∧
    (∀ (r : SqlResult) (first retry : LLMResult),
      st.messages.getLast? = some (Msg.tool (ToolContent.parsed r) "run_sql") →
      r.success = false → pyStrip r.error ≠ "" →
      assistantStep st first retry =
        ⟨Msg.ai (budgetExhaustedMessage r.error) none, 0, none⟩) := by
  refine ⟨?_, ?_, ?_⟩
  · intro h
    exact absurd (afterToolsDecision_critic_lt st h) (by omega)
  · intro model
    unfold criticNode
    cases (st.messages.reverse).find? isRunSqlTool <;> cases model <;> rfl
  · intro r first retry hlast hs herr
    rw [assistantStep_parsed st r first retry hlast, if_neg (by simp [hs]),
      if_pos ⟨h3, hs, herr⟩]

/-- C3 witness. -/
theorem claim_C3_budget_cap_witness :
    afterToolsDecision c3State ≠ some Route.critic ∧
    (criticNode c3State (CriticModelResult.ok "x")).criticAttempts = 4 ∧
    assistantStep c3State (LLMResult.ok (Msg.ai "a" none))
        (LLMResult.ok (Msg.ai "a" none)) =
      ⟨Msg.ai (budgetExhaustedMessage "boom") none, 0, none⟩ := by
  have h := claim_C3_budget_cap c3State (by decide)
  exact ⟨h.1, h.2.1 (CriticModelResult.ok "x"),
    h.2.2 ⟨false, 0, "boom", false, 0⟩ (LLMResult.ok (Msg.ai "a" none))
      (LLMResult.ok (Msg.ai "a" none)) rfl rfl (by decide)⟩

/-! ### Claim C4 -/

/-- C4 (amended): a `run_sql` result parsed with `success=false`,
`row_count=0`, no connection error and exhausted repair budget makes the
post-tool decision continue-to-assistant (the deterministic fallback path),
not terminate: the source's `return END` for this case is dead code behind
the zero-row check. -/
theorem claim_C4_exhausted_failure (st : AgentState) (r : SqlResult)
    (hlast : st.messages.getLast? = some (Msg.tool (ToolContent.parsed r) "run_sql"))
    (hs : r.success = false) (hrc : r.rowCount = 0)
    (hic : r.isConnectionError = false) (h3 : 3 ≤ st.criticAttempts) :
    afterToolsDecision st = some Route.assistant := by
  rw [afterToolsDecision_parsed st r hlast, if_neg (by simp [hic])]
  apply routeGuards_of_main_assistant
  rw [hrc]
  exact mainPolicy_rc0_assistant st r.success r.error r.dataLen (Or.inr h3)

/-- C4 counterexample: at the exact configuration of the claim the decision
is continue-to-assistant, not terminate. -/
theorem claim_C4_counterexample :
    afterToolsDecision c4State ≠ some Route.terminate ∧
    afterToolsDecision c4State = some Route.assistant := by decide

/-- C4 witness. -/
theorem claim_C4_exhausted_failure_witness :
    afterToolsDecision c4State = some Route.assistant := by
  exact claim_C4_exhausted_failure c4State ⟨false, 0, "", false, 0⟩
    rfl rfl rfl rfl (by decide)

/-! ### Claim C5 -/

/-- C5 (amended): when the just-appended `run_sql` result parses with
`success=true`, `row_count=0` and no connection error, and AT LEAST TWO
critic-tagged turns exist in the message history, three or more successful
zero-row executions since the last human turn (the current one included)
force continue-to-assistant, for any `critic_attempts` and any error text.
Without two critic turns the guard is skipped and the claim fails. -/
theorem claim_C5_zero_rows_guard (st : AgentState) (r : SqlResult)
    (hlast : st.messages.getLast? = some (Msg.tool (ToolContent.parsed r) "run_sql"))
    (hs : r.success = true) (hrc : r.rowCount = 0)
    (hic : r.isConnectionError = false)
    (hcrit : 2 ≤ (st.messages.filter isCriticMsg).length)
    (hz : 3 ≤ zeroRowsSinceHuman st.messages) :
    afterToolsDecision st = some Route.assistant := by
  rw [afterToolsDecision_parsed st r hlast, if_neg (by simp [hic])]
  exact routeGuards_zero_rows st r.success r.rowCount r.error r.dataLen hcrit hz

/-- C5 counterexample: four successful zero-row results since the last human
turn, but no critic turn in history — the guard is skipped and an error-text
hit sends the router to the critic despite the zero-row streak. -/
theorem claim_C5_counterexample :
    4 ≤ zeroRowsSinceHuman c5State.messages ∧
    c5State.criticAttempts < 3 ∧
    afterToolsDecision c5State = some Route.critic := by decide

/-- C5 witness. -/
theorem claim_C5_zero_rows_guard_witness :
    afterToolsDecision c5WitnessState = some Route.assistant := by
  exact claim_C5_zero_rows_guard c5WitnessState zeroRowsErrorHintResult
    rfl rfl rfl rfl (by decide) (by decide)

/-! ### Claim C6 -/

/-- C6 (amended): on a schema-introspection tool result the router counts the
schema results in the ENTIRE message history (the just-appended one
included, invocations of earlier turns included): it terminates when that
total is at least 2 and continues to the assistant otherwise. -/
theorem claim_C6_schema_bound (st : AgentState) (c : ToolContent)
    (hlast : st.messages.getLast? = some (Msg.tool c "get_postgres_schema")) :
    (2 ≤ schemaCallCount st.messages → afterToolsDecision st = some Route.terminate) ∧
    (schemaCallCount st.messages < 2 → afterToolsDecision st = some Route.assistant) := by
  constructor
  · intro h2
    rw [afterToolsDecision_schema st c hlast, if_pos h2]
  · intro h2
    rw [afterToolsDecision_schema st c hlast, if_neg (by omega)]

/-- C6 counterexample: two schema calls happened in an EARLIER turn; the
current turn's first schema call is terminated although schema introspection
has not been invoked twice during the current turn. -/
theorem claim_C6_counterexample :
    schemaCallsThisTurn c6State.messages = 1 ∧
    afterToolsDecision c6State = some Route.terminate := by decide

/-- C6 witness. -/
theorem claim_C6_schema_bound_witness :
    afterToolsDecision c6State = some Route.terminate ∧
    afterToolsDecision firstSchemaCallState = some Route.assistant := by
  refine ⟨(claim_C6_schema_bound c6State (ToolContent.unparsed "schema document")
    rfl).1 (by decide), ?_⟩
  exact (claim_C6_schema_bound firstSchemaCallState
    (ToolContent.unparsed "schema document") rfl).2 (by decide)

/-! ### Claim C7 -/

/-- C7: on a malformed tool-invocation failure the assistant step invokes the
model exactly twice (the designated retry), the retry history is restricted
to at most the single most recent human turn of the history, a failing retry
yields the deterministic apology and a succeeding retry's message is
appended; any other model failure yields the deterministic temporary-error
message after a single invocation; and the step as a whole always appends
exactly one turn — it either short-circuits deterministically with no model
call or behaves exactly as the model phase. -/
theorem claim_C7_model_failure_handling :
    (∀ (st : AgentState) (e : String) (retry : LLMResult),
      isMalformedToolError e = true →
        (assistantModelPhase st (LLMResult.err e) retry).modelCalls = 2 ∧
        (∃ rh, (assistantModelPhase st (LLMResult.err e) retry).retryHistory = some rh ∧
          (rh = [] ∨ ∃ hm, rh = [hm] ∧
            (st.messages.reverse).find? isHumanMsg = some hm)) ∧
        (∀ m, retry = LLMResult.ok m →
          (assistantModelPhase st (LLMResult.err e) retry).appended = m) ∧
        (∀ e2, retry = LLMResult.err e2 →
          (assistantModelPhase st (LLMResult.err e) retry).appended =
            Msg.ai apologyMessage none)) ∧
    (∀ (st : AgentState) (e : String) (retry : LLMResult),
      isMalformedToolError e = false →
        assistantModelPhase st (LLMResult.err e) retry =
          ⟨Msg.ai tempErrorMessage none, 1, none⟩) ∧
    (∀ (st : AgentState) (first retry : LLMResult),
      (assistantStep st first retry).modelCalls = 0 ∨
        assistantStep st first retry = assistantModelPhase st first retry) := by
  refine ⟨?_, ?_, ?_⟩
  · intro st e retry hmal
    have hrh : lastN 1 ((truncateForLLM st.messages).filter isHumanMsg) = [] ∨
        ∃ a, lastN 1 ((truncateForLLM st.messages).filter isHumanMsg) = [a] ∧
          (st.messages.reverse).find? isHumanMsg = some a := by
      rcases lastN_one_filter isHumanMsg (truncateForLLM st.messages) with h0 | ⟨a, ha, hf⟩
      · exact Or.inl h0
      · exact Or.inr ⟨a, ha, find_truncate_lift isHumanMsg st.messages a hf⟩
    cases retry with
    | ok m =>
      refine ⟨by simp [assistantModelPhase, hmal], ?_, ?_, ?_⟩
      · exact ⟨lastN 1 ((truncateForLLM st.messages).filter isHumanMsg),
          by simp [assistantModelPhase, hmal], hrh⟩
      · intro m2 hm2
        rw [LLMResult.ok.injEq] at hm2
        simp [assistantModelPhase, hmal, hm2]
      · intro e2 he2
        exact absurd he2 (by simp)
    | err e1 =>
      refine ⟨by simp [assistantModelPhase, hmal], ?_, ?_, ?_⟩
      · exact ⟨lastN 1 ((truncateForLLM st.messages).filter isHumanMsg),
          by simp [assistantModelPhase, hmal], hrh⟩
      · intro m2 hm2
        exact absurd hm2 (by simp)
      · intro e2 _
        simp [assistantModelPhase, hmal]
  · intro st e retry hmal
    cases retry <;> simp [assistantModelPhase, hmal]
  · intro st first retry
    unfold assistantStep
    split
    · split_ifs
      · left; rfl
      · left; rfl
      · right; rfl
    · right; rfl

/-- C7 witness. -/
theorem claim_C7_model_failure_handling_witness :
    (assistantModelPhase ⟨[Msg.human "щ"], 0, "щ"⟩
        (LLMResult.err "groq tool_use_failed") (LLMResult.err "again")).appended =
      Msg.ai apologyMessage none ∧
    assistantModelPhase ⟨[Msg.human "щ"], 0, "щ"⟩
        (LLMResult.err "rate_limit") (LLMResult.err "again") =
      ⟨Msg.ai tempErrorMessage none, 1, none⟩ := by
  refine ⟨(claim_C7_model_failure_handling.1 ⟨[Msg.human "щ"], 0, "щ"⟩
    "groq tool_use_failed" (LLMResult.err "again") (by decide)).2.2.2 "again" rfl, ?_⟩
  exact claim_C7_model_failure_handling.2.1 ⟨[Msg.human "щ"], 0, "щ"⟩
    "rate_limit" (LLMResult.err "again") (by decide)

/-! ### Claim C8 -/

/-- C8: the cache write-back writes an entry only when the turn's result has
`from_cache` not identical to `True` and the response is not classified as an
error; a turn served from cache never reaches `_try_cache_response` at all,
and an error-classified response is never written. -/
theorem claim_C8_cache_write_gate (fromCache : Option Bool) (store : Bool)
    (query response : String) :
    (chatCacheAction fromCache store query response = some CacheAction.written →
      fromCache ≠ some true ∧ isErrorResponse (pyStrip response) = false) ∧
    (fromCache = some true → chatCacheAction fromCache store query response = none) ∧
    (isErrorResponse (pyStrip response) = true →
      chatCacheAction fromCache store query response ≠ some CacheAction.written) := by
  refine ⟨?_, ?_, ?_⟩
  · intro h
    unfold chatCacheAction tryCacheResponse at h
    split_ifs at h <;> simp_all
  · intro h
    unfold chatCacheAction
    rw [if_pos h]
  · intro h hw
    unfold chatCacheAction tryCacheResponse at hw
    split_ifs at hw <;> simp_all

/-- C8 witness. -/
theorem claim_C8_cache_write_gate_witness :
    chatCacheAction (some true) true "вопрос" "Ответ готов" = none ∧
    chatCacheAction (some false) true "вопрос" "Произошла ошибка" ≠
      some CacheAction.written := by
  refine ⟨(claim_C8_cache_write_gate (some true) true "вопрос" "Ответ готов").2.1 rfl, ?_⟩
  exact (claim_C8_cache_write_gate (some false) true "вопрос"
    "Произошла ошибка").2.2 (by decide)

/-! ### Claim C9 -/

/-- C9: every critic invocation increments `critic_attempts` by exactly one;
when no `run_sql` tool result exists in the history no turn is appended (but
the counter still advances); when one exists, exactly one critic-tagged
assistant turn is appended, both on model success and on model failure. -/
theorem claim_C9_critic_invocation (st : AgentState) (model : CriticModelResult) :
    (criticNode st model).criticAttempts = st.criticAttempts + 1 ∧
    ((st.messages.reverse).find? isRunSqlTool = none →
      (criticNode st model).messages = st.messages) ∧
    (∀ m, (st.messages.reverse).find? isRunSqlTool = some m →
      ∃ c, (criticNode st model).messages =
        st.messages ++ [Msg.ai c (some "sql_critic")]) := by
  refine ⟨?_, ?_, ?_⟩
  · unfold criticNode
    cases (st.messages.reverse).find? isRunSqlTool <;> cases model <;> rfl
  · intro h
    unfold criticNode
    rw [h]
  · intro m h
    unfold criticNode
    rw [h]
    cases model with
    | ok content => exact ⟨_, rfl⟩
    | err e => exact ⟨_, rfl⟩

/-- C9 witness. -/
theorem claim_C9_critic_invocation_witness :
    (criticNode ⟨[Msg.human "в"], 1, "в"⟩ (CriticModelResult.err "fail")).criticAttempts
      = 2 ∧
    (criticNode ⟨[Msg.human "в"], 1, "в"⟩ (CriticModelResult.err "fail")).messages
      = [Msg.human "в"] := by
  have h := claim_C9_critic_invocation ⟨[Msg.human "в"], 1, "в"⟩
    (CriticModelResult.err "fail")
  exact ⟨h.1, h.2.1 rfl⟩

/-! ### Claim C10 -/

/-- C10: the fixed error-keyword list includes the single character of code
point 123 (the opening curly brace) and the word "success"; any response
whose stripped text contains either of them case-insensitively is classified
as an error and never written to the cache, even if it is a legitimate
answer. -/
theorem claim_C10_keyword_overreach :
    ("\x7b" ∈ ERROR_KEYWORDS ∧ "success" ∈ ERROR_KEYWORDS) ∧
    (∀ (fromCache : Option Bool) (store : Bool) (query response : String),
      (containsSubstr (pyLower (pyStrip response)) "\x7b" = true ∨
        containsSubstr (pyLower (pyStrip response)) "success" = true) →
      isErrorResponse (pyStrip response) = true ∧
      chatCacheAction fromCache store query response ≠ some CacheAction.written) := by
  refine ⟨⟨by decide, by decide⟩, ?_⟩
  intro fromCache store query response h
  have hisErr : isErrorResponse (pyStrip response) = true := by
    unfold isErrorResponse
    rcases h with h | h
    · exact List.any_eq_true.mpr ⟨"\x7b", by decide, h⟩
    · exact List.any_eq_true.mpr ⟨"success", by decide, h⟩
  refine ⟨hisErr, ?_⟩
  intro hw
  unfold chatCacheAction tryCacheResponse at hw
  split_ifs at hw <;> simp_all

/-- C10 witness: a legitimate successful answer containing the word
"Success" is classified as an error and not cached. -/
theorem claim_C10_keyword_overreach_witness :
    isErrorResponse (pyStrip "Success: 12 rows") = true ∧
    chatCacheAction (some false) true "query" "Success: 12 rows" ≠
      some CacheAction.written := by
  exact (claim_C10_keyword_overreach.2 (some false) true "query"
    "Success: 12 rows") (Or.inr (by decide))

end Multiagents
